import Mathlib

/-!
Verification of the weather acquisition-and-normalization pipeline
(src/App.tsx) against its natural-language specification.

The TypeScript source is shallowly embedded: JavaScript numbers that only
participate in comparisons (temperatures, coordinates, wind speed) become the
rationals; epoch timestamps and weather codes become Int; optional JSON fields
become Option; network effects are passed in explicitly as outcome values, so
every function of the pipeline is a pure, executable Lean function mirroring
the source.
-/

namespace WeatherApp

/-- Source unit-system union type: metric or imperial. -/
inductive Units where
  | metric
  | imperial
deriving DecidableEq, Repr

/-- Source background taxonomy: sunny, rain, snow, storm, cloudy. -/
inductive BackgroundKind where
  | sunny
  | rain
  | snow
  | storm
  | cloudy
deriving DecidableEq, Repr

/-- Source fetch-state union: idle, loading, success, error. -/
inductive FetchState where
  | idle
  | loading
  | success
  | error
deriving DecidableEq, Repr

/-- Source search-mode union: city or geo. -/
inductive SearchMode where
  | city
  | geo
deriving DecidableEq, Repr

/-- One entry of a weather array: id, main, description, icon. -/
structure WeatherEntry where
  id : Int
  main : String
  description : String
  icon : String
deriving DecidableEq, Repr

/-- Source function classifyBackground, with the guard chain transcribed in
order. -/
def classifyBackground (main : String) (weatherId : Int) : BackgroundKind :=
  if 200 ≤ weatherId ∧ weatherId < 300 then .storm
  else if 600 ≤ weatherId ∧ weatherId < 700 then .snow
  else if 500 ≤ weatherId ∧ weatherId < 600 then .rain
  else if weatherId = 800 then .sunny
  else if weatherId = 801 ∨ weatherId = 802 then .sunny
  else if 803 ≤ weatherId ∧ weatherId ≤ 804 then .cloudy
  else if main = "Drizzle" ∨ main = "Rain" then .rain
  else if main = "Snow" then .snow
  else if main = "Thunderstorm" then .storm
  else .cloudy

/-- The classifier precedence exactly as the specification words it:
code in [200,300) gives Storm; [600,700) Snow; [500,600) Rain; 800, 801 or
802 Sunny; 803 or 804 Cloudy; else weatherMain Drizzle or Rain gives Rain,
Snow gives Snow, Thunderstorm gives Storm; every remaining input Cloudy. -/
def classifySpec (main : String) (weatherId : Int) : BackgroundKind :=
  if 200 ≤ weatherId ∧ weatherId < 300 then .storm
  else if 600 ≤ weatherId ∧ weatherId < 700 then .snow
  else if 500 ≤ weatherId ∧ weatherId < 600 then .rain
  else if weatherId = 800 ∨ weatherId = 801 ∨ weatherId = 802 then .sunny
  else if weatherId = 803 ∨ weatherId = 804 then .cloudy
  else if main = "Drizzle" ∨ main = "Rain" then .rain
  else if main = "Snow" then .snow
  else if main = "Thunderstorm" then .storm
  else .cloudy

/-! ## Calendar-day keys

The source derives the grouping key of a forecast sample from
new Date(item.dt * 1000) via getUTCFullYear, getUTCMonth (0-based) and
getUTCDate. We embed the proleptic Gregorian civil-from-days conversion that
those accessors implement, applied to the floored epoch day. -/

/-- Convert a day count since the Unix epoch to a proleptic Gregorian civil
date (year, month in 1..12, day in 1..31), as ECMAScript UTC accessors do. -/
def civilFromDays (z : Int) : Int × Int × Int :=
  let z2 := z + 719468
  let era := Int.fdiv z2 146097
  let doe := z2 - era * 146097
  let yoe := Int.fdiv
    (doe - Int.fdiv doe 1460 + Int.fdiv doe 36524 - Int.fdiv doe 146096) 365
  let y := yoe + era * 400
  let doy := doe - (365 * yoe + Int.fdiv yoe 4 - Int.fdiv yoe 100)
  let mp := Int.fdiv (5 * doy + 2) 153
  let d := doy - Int.fdiv (153 * mp + 2) 5 + 1
  let m := mp + (if mp < 10 then 3 else -9)
  ((if m ≤ 2 then y + 1 else y), m, d)

/-- The UTC day key of an epoch-second timestamp as the source builds it:
(getUTCFullYear, getUTCMonth, getUTCDate), with the month 0-based. -/
def utcDayKey (dt : Int) : Int × Int × Int :=
  let c := civilFromDays (Int.fdiv dt 86400)
  (c.1, c.2.1 - 1, c.2.2)

abbrev DayKey := Int × Int × Int

/-! ## Forecast samples and the daily aggregator -/

/-- The main block of a forecast list item: temp, temp_min, temp_max. -/
structure ForecastItemMain where
  temp : ℚ
  temp_min : ℚ
  temp_max : ℚ
deriving DecidableEq, Repr

/-- One three-hour forecast sample (interface ForecastItem in the source). -/
structure ForecastItem where
  dt : Int
  main : ForecastItemMain
  weather : List WeatherEntry
deriving DecidableEq, Repr

/-- The per-day accumulator value stored in the dailyMap of the source. -/
structure DayAcc where
  dt : Int
  min : ℚ
  max : ℚ
  day : ℚ
  weather : List WeatherEntry
deriving DecidableEq, Repr

/-- The grouping key of a sample. -/
def itemKey (item : ForecastItem) : DayKey := utcDayKey item.dt

/-- Seeding of a fresh accumulator from the first sample of a day
(the dailyMap.set branch of the source loop). -/
def seedAcc (item : ForecastItem) : DayAcc :=
  { dt := item.dt
    min := item.main.temp_min
    max := item.main.temp_max
    day := item.main.temp
    weather := item.weather }

/-- In-place update of an existing accumulator by a repeat sample
(the else branch of the source loop): widen min and max, overwrite the
representative temperature and weather with the latest sample. -/
def mergeAcc (a : DayAcc) (item : ForecastItem) : DayAcc :=
  { dt := a.dt
    min := min a.min item.main.temp_min
    max := max a.max item.main.temp_max
    day := item.main.temp
    weather := item.weather }

/-- Lookup in an insertion-ordered association list, as Map.get does. -/
def assocFind (m : List (DayKey × DayAcc)) (k : DayKey) : Option DayAcc :=
  match m with
  | [] => none
  | p :: rest => if p.1 = k then some p.2 else assocFind rest k

/-- One iteration of the source loop over forecastList: a new key is appended
(JavaScript Map preserves insertion order), a repeat key has its stored
accumulator mutated in place. -/
def dailyStep (m : List (DayKey × DayAcc)) (item : ForecastItem) :
    List (DayKey × DayAcc) :=
  match assocFind m (itemKey item) with
  | none => m ++ [(itemKey item, seedAcc item)]
  | some _ =>
    m.map (fun p => if p.1 = itemKey item then (p.1, mergeAcc p.2 item) else p)

/-- The fully folded dailyMap after the source loop. -/
def dailyMapOf (items : List ForecastItem) : List (DayKey × DayAcc) :=
  items.foldl dailyStep []

/-- The temp sub-record of a OneCallDaily. -/
structure OneCallTemp where
  min : ℚ
  max : ℚ
  day : ℚ
deriving DecidableEq, Repr

/-- One emitted daily summary (interface OneCallDaily in the source). -/
structure OneCallDaily where
  dt : Int
  temp : OneCallTemp
  weather : List WeatherEntry
deriving DecidableEq, Repr

/-- Conversion of an accumulator into the emitted summary shape
(the map step after Array.from in the source). -/
def accToDaily (a : DayAcc) : OneCallDaily :=
  { dt := a.dt
    temp := { min := a.min, max := a.max, day := a.day }
    weather := a.weather }

/-- The daily aggregation of the source: fold the samples into the map, take
the first 8 entries in insertion order, and emit their values. -/
def aggregateDaily (items : List ForecastItem) : List OneCallDaily :=
  ((dailyMapOf items).take 8).map (fun p => accToDaily p.2)

/-! ### Reference forms used to state the aggregation claim -/

/-- All samples of a given day, in arrival order. -/
def sameDay (k : DayKey) (items : List ForecastItem) : List ForecastItem :=
  items.filter (fun i => decide (itemKey i = k))

/-- The reference accumulator of one day: seed from the first sample of the
day, then merge each later sample in order. -/
def groupAcc (f : ForecastItem) (rest : List ForecastItem) : DayAcc :=
  rest.foldl mergeAcc (seedAcc f)

/-- Keys in first-seen order, each kept once. -/
def firstSeenKeys (ks : List DayKey) : List DayKey :=
  ks.foldl (fun acc k => if k ∈ acc then acc else acc ++ [k]) []

/-! ## Upstream payload shapes and the free-API fetcher -/

/-- A coordinate pair. -/
structure Coord where
  lat : ℚ
  lon : ℚ
deriving DecidableEq, Repr

/-- The main block of the current-conditions payload. -/
structure CurrentMain where
  temp : ℚ
  feels_like : ℚ
  humidity : ℚ
deriving DecidableEq, Repr

/-- The wind block of the current-conditions payload. -/
structure Wind where
  speed : ℚ
deriving DecidableEq, Repr

/-- The sys block: sunrise and sunset epoch seconds. -/
structure SysBlock where
  sunrise : Int
  sunset : Int
deriving DecidableEq, Repr

/-- The in-body status code, which providers send either as a number or as a
string form of the same number. -/
inductive CodValue where
  | num (n : Int)
  | str (s : String)
deriving DecidableEq, Repr

/-- Parsed current-conditions payload (interface CurrentWeatherResponse).
Fields the source reads through optional chaining or nullish coalescing are
Option. -/
structure CurrentWeatherResponse where
  coord : Coord
  weather : List WeatherEntry
  main : CurrentMain
  wind : Wind
  sys : SysBlock
  dt : Int
  timezone : Option Int
  name : Option String
  cod : Option CodValue
  message : Option String
deriving DecidableEq, Repr

/-- The city block of the forecast payload. -/
structure ForecastCity where
  timezone : Option Int
deriving DecidableEq, Repr

/-- Parsed forecast payload (interface ForecastResponse). A missing or
non-array list is Option.none, matching the Array.isArray guard. -/
structure ForecastResponse where
  list : Option (List ForecastItem)
  city : Option ForecastCity
  cod : Option CodValue
  message : Option String
deriving DecidableEq, Repr

/-- The permissive success-status check of the source: cod absent, or equal
to 200 in numeric or string form. -/
def codOk (cod : Option CodValue) : Bool :=
  match cod with
  | none => true
  | some (.num n) => n = 200
  | some (.str s) => s = "200"

/-- An HTTP response that was delivered: the ok flag, the numeric status, and
the body, whose JSON parse may itself fail. -/
structure HttpResp (α : Type) where
  ok : Bool
  status : Nat
  body : Except String α

/-- JavaScript logical-or on a possibly absent string: an absent or empty
string falls through to the default. -/
def jsOr (m : Option String) (d : String) : String :=
  match m with
  | some s => if s = "" then d else s
  | none => d

/-- The message field of an error body, when the body parsed at all. -/
def bodyMessageCur : Except String CurrentWeatherResponse → Option String
  | .ok c => c.message
  | .error _ => none

/-- The message field of an error body, when the body parsed at all. -/
def bodyMessageFc : Except String ForecastResponse → Option String
  | .ok f => f.message
  | .error _ => none

/-- The sample list actually consumed by the aggregator: the forecast list if
the permissive in-body check passed and the list is an array, else empty. -/
def usedForecastList (fcOk : Bool) (l : Option (List ForecastItem)) :
    List ForecastItem :=
  if fcOk then l.getD [] else []

/-- Normalized current conditions inside the unified snapshot. -/
structure OneCallCurrent where
  dt : Int
  sunrise : Int
  sunset : Int
  temp : ℚ
  feels_like : ℚ
  humidity : ℚ
  wind_speed : ℚ
  weather : List WeatherEntry
deriving DecidableEq, Repr

/-- The unified result shape (interface OneCallResponse). -/
structure OneCallResponse where
  lat : ℚ
  lon : ℚ
  timezone : String
  timezone_offset : Int
  current : OneCallCurrent
  daily : List OneCallDaily
deriving DecidableEq, Repr

/-- The synthetic daily entry promoted from current conditions when the
aggregation produced nothing. -/
def syntheticDaily (current : CurrentWeatherResponse) : OneCallDaily :=
  { dt := current.dt
    temp :=
      { min := current.main.temp
        max := current.main.temp
        day := current.main.temp }
    weather := current.weather }

/-- Assembly of the unified OneCallResponse from the parsed current payload,
the usable forecast samples and the chosen timezone offset. -/
def buildOneCall (current : CurrentWeatherResponse)
    (forecastList : List ForecastItem) (timezoneOffset : Int) :
    OneCallResponse :=
  let daily := aggregateDaily forecastList
  { lat := current.coord.lat
    lon := current.coord.lon
    timezone := ""
    timezone_offset := timezoneOffset
    current :=
      { dt := current.dt
        sunrise := current.sys.sunrise
        sunset := current.sys.sunset
        temp := current.main.temp
        feels_like := current.main.feels_like
        humidity := current.main.humidity
        wind_speed := current.wind.speed
        weather := current.weather }
    daily := if daily.isEmpty then [syntheticDaily current] else daily }

/-- Source function fetchWeatherFree, as a pure function of the joint network
outcome of the two concurrent requests. A transport failure of either request
rejects the awaited pair as a whole; then the source checks the current HTTP
status (with a 401 special case), the forecast HTTP status, parses both
bodies, checks the permissive in-body code of the current payload fatally and
of the forecast payload non-fatally, and assembles the snapshot. -/
def fetchWeatherFree
    (net : Except String (HttpResp CurrentWeatherResponse × HttpResp ForecastResponse)) :
    Except String OneCallResponse :=
  match net with
  | .error e => .error e
  | .ok (currentResp, forecastResp) =>
    if currentResp.ok = false then
      let msg := jsOr (bodyMessageCur currentResp.body)
        ("HTTP " ++ toString currentResp.status)
      if currentResp.status = 401 then
        .error ("Invalid API key: " ++ msg ++
          ". Check your key at https://home.openweathermap.org/api_keys")
      else
        .error msg
    else if forecastResp.ok = false then
      .error (jsOr (bodyMessageFc forecastResp.body)
        ("HTTP " ++ toString forecastResp.status))
    else
      match currentResp.body with
      | .error e => .error e
      | .ok current =>
        match forecastResp.body with
        | .error e => .error e
        | .ok forecast =>
          if codOk current.cod = false then
            .error (jsOr current.message "Current weather request failed")
          else
            let forecastList := usedForecastList (codOk forecast.cod) forecast.list
            let timezoneOffset := current.timezone.getD
              ((forecast.city.bind (fun c => c.timezone)).getD 0)
            .ok (buildOneCall current forecastList timezoneOffset)

/-! ## Geocoding -/

/-- One geocoding candidate (interface GeocodingResult). -/
structure GeocodingResult where
  name : String
  lat : ℚ
  lon : ℚ
  country : Option String
  state : Option String
deriving DecidableEq, Repr

/-- The outcome of one network call: the transport layer failed, or a
response was delivered. -/
inductive NetOutcome (α : Type) where
  | transportError (e : String)
  | response (resp : HttpResp α)

/-- Source function reverseGeocode as a function of its network outcome: a
transport error is swallowed by the catch, a non-ok response returns null, a
body that fails to parse is swallowed by the catch, an empty candidate list
returns null, and otherwise the first candidate is returned. -/
def reverseGeocode (net : NetOutcome (List GeocodingResult)) :
    Option GeocodingResult :=
  match net with
  | .transportError _ => none
  | .response resp =>
    if resp.ok = false then none
    else
      match resp.body with
      | .error _ => none
      | .ok data => data.head?

/-- Source function buildLocationLabel. JavaScript truthiness makes an empty
state or country string fall through. -/
def buildLocationLabel (geo : Option GeocodingResult)
    (fallback : Option String) : String :=
  match geo with
  | some g =>
    let parts := [g.name]
    let parts :=
      match g.state with
      | some st => if st ≠ "" ∧ st ≠ g.name then parts ++ [st] else parts
      | none => parts
    let parts :=
      match g.country with
      | some c => if c ≠ "" then parts ++ [c] else parts
      | none => parts
    String.intercalate ", " parts
  | none => fallback.getD "Current location"

/-! ## The resolution orchestrator -/

/-- The resolved snapshot held by the orchestrator (interface
ResolvedWeather). -/
structure ResolvedWeather where
  locationName : String
  countryCode : Option String
  current : OneCallCurrent
  daily : List OneCallDaily
  timezoneOffset : Int
  lat : ℚ
  lon : ℚ
deriving DecidableEq, Repr

/-- The whole state exposed by the useWeather hook. -/
structure AppState where
  units : Units
  searchQuery : String
  searchMode : SearchMode
  backgroundKind : BackgroundKind
  fetchState : FetchState
  error : Option String
  weather : Option ResolvedWeather
deriving DecidableEq, Repr

/-- The runtime text of the TypeError raised when the head of an empty
weather array is dereferenced inside the success path. -/
def typeErrorHeadMsg : String :=
  "Cannot read properties of undefined (reading main)"

/-- JavaScript String.prototype.trim: strip whitespace from both ends. -/
def jsTrim (s : String) : String :=
  String.mk
    (((s.data.dropWhile Char.isWhitespace).reverse.dropWhile
      Char.isWhitespace).reverse)

/-- Source intent searchByCity, as a state transformer taking the outcomes
the two collaborators would produce; the returned pair of counters is how
often geocodeCity and fetchOneCall were awaited. The unguarded
current.weather[0] dereference of the success path is modelled by head?,
whose none case lands in the catch block. -/
def searchByCity (s : AppState)
    (geoResult : Except String (Option GeocodingResult))
    (fetchResult : Except String OneCallResponse) :
    AppState × Nat × Nat :=
  if jsTrim s.searchQuery = "" then
    ({ s with error := some "Please enter a city name" }, 0, 0)
  else
    let s1 := { s with fetchState := .loading, error := none }
    match geoResult with
    | .error e =>
      ({ s1 with
           fetchState := .error
           error := some (jsOr (some e) "Unable to fetch weather for that city.") },
       1, 0)
    | .ok none =>
      ({ s1 with
           fetchState := .error
           error := some "No results for that city. Try another name." }, 1, 0)
    | .ok (some geo) =>
      match fetchResult with
      | .error e =>
        ({ s1 with
             fetchState := .error
             error := some (jsOr (some e) "Unable to fetch weather for that city.") },
         1, 1)
      | .ok oneCall =>
        match oneCall.current.weather.head? with
        | none =>
          ({ s1 with
               fetchState := .error
               error := some (jsOr (some typeErrorHeadMsg)
                 "Unable to fetch weather for that city.") }, 1, 1)
        | some head =>
          ({ s1 with
               fetchState := .success
               searchMode := .city
               backgroundKind := classifyBackground head.main head.id
               weather := some
                 { locationName := buildLocationLabel (some geo) (some geo.name)
                   countryCode := geo.country
                   current := oneCall.current
                   daily := oneCall.daily
                   timezoneOffset := oneCall.timezone_offset
                   lat := oneCall.lat
                   lon := oneCall.lon } }, 1, 1)

/-- Source intent handleUnitsChange, as a state transformer taking the
outcome the fetch collaborator would produce; the counter is how often
fetchOneCall was awaited. The early return on an equal unit system and the
early return without a snapshot perform no fetch; the unit preference is
stored before the fetch and never reverted. -/
def handleUnitsChange (s : AppState) (next : Units)
    (fetchResult : Except String OneCallResponse) : AppState × Nat :=
  if next = s.units then (s, 0)
  else
    let s0 := { s with units := next }
    match s0.weather with
    | none => (s0, 0)
    | some w =>
      let s1 := { s0 with fetchState := .loading, error := none }
      match fetchResult with
      | .error _ =>
        ({ s1 with
             fetchState := .error
             error := some "Unable to refresh weather for the new unit." }, 1)
      | .ok fresh =>
        match fresh.current.weather.head? with
        | none =>
          ({ s1 with
               fetchState := .error
               error := some "Unable to refresh weather for the new unit." }, 1)
        | some head =>
          ({ s1 with
               fetchState := .success
               backgroundKind := classifyBackground head.main head.id
               weather := some
                 { locationName := w.locationName
                   countryCode := w.countryCode
                   current := fresh.current
                   daily := fresh.daily
                   timezoneOffset := fresh.timezone_offset
                   lat := fresh.lat
                   lon := fresh.lon } }, 1)

/-- The geolocation-success path of the startup effect: loading is entered
and the mode set to geo before the position callback runs; then the weather
fetch outcome decides the transition, with the reverse-geocode outcome only
feeding the display label and country code. -/
def resolveWithGeoPosition (s : AppState)
    (fetchResult : Except String OneCallResponse)
    (geo : Option GeocodingResult) : AppState :=
  let s1 := { s with fetchState := .loading, searchMode := .geo }
  match fetchResult with
  | .error e =>
    { s1 with
        fetchState := .error
        error := some ((jsOr (some e) "Unable to get weather for your location.")
          ++ " Please search for a city instead.") }
  | .ok oneCall =>
    match oneCall.current.weather.head? with
    | none =>
      { s1 with
          fetchState := .error
          error := some ((jsOr (some typeErrorHeadMsg)
            "Unable to get weather for your location.")
            ++ " Please search for a city instead.") }
    | some head =>
      { s1 with
          fetchState := .success
          backgroundKind := classifyBackground head.main head.id
          weather := some
            { locationName := buildLocationLabel geo (some "Current location")
              countryCode := geo.bind (fun g => g.country)
              current := oneCall.current
              daily := oneCall.daily
              timezoneOffset := oneCall.timezone_offset
              lat := oneCall.lat
              lon := oneCall.lon } }

/-! ## Concrete sample data used by the closed witness theorems -/

/-- A clear-sky weather entry. -/
def clearEntry : WeatherEntry :=
  { id := 800, main := "Clear", description := "clear sky", icon := "01d" }

/-- A light-rain weather entry. -/
def rainEntry : WeatherEntry :=
  { id := 500, main := "Rain", description := "light rain", icon := "10d" }

/-- A well-formed current-conditions payload. -/
def sampleCurrent : CurrentWeatherResponse :=
  { coord := { lat := 48, lon := 2 }
    weather := [clearEntry]
    main := { temp := 18, feels_like := 17, humidity := 60 }
    wind := { speed := 3 }
    sys := { sunrise := 100, sunset := 200 }
    dt := 1000
    timezone := some 3600
    name := some "Paris"
    cod := some (.num 200)
    message := none }

/-- A geocoding candidate. -/
def sampleGeo : GeocodingResult :=
  { name := "Paris", lat := 48, lon := 2, country := some "FR", state := none }

/-- The unified result of a fetch whose forecast leg contributed nothing. -/
def sampleOneCall : OneCallResponse := buildOneCall sampleCurrent [] 3600

/-- The same result with an empty weather array in its current block. -/
def emptyWeatherOneCall : OneCallResponse :=
  { sampleOneCall with
      current := { sampleOneCall.current with weather := [] } }

/-- A snapshot as the orchestrator would hold it. -/
def sampleSnapshot : ResolvedWeather :=
  { locationName := "Paris, FR"
    countryCode := some "FR"
    current := sampleOneCall.current
    daily := sampleOneCall.daily
    timezoneOffset := 3600
    lat := 48
    lon := 2 }

/-- An initial state with a pending query and no snapshot. -/
def idleState : AppState :=
  { units := .metric
    searchQuery := "Paris"
    searchMode := .city
    backgroundKind := .cloudy
    fetchState := .idle
    error := none
    weather := none }

/-- A state already displaying a snapshot. -/
def snappedState : AppState :=
  { idleState with fetchState := .success, weather := some sampleSnapshot }

/-- A state whose query is whitespace only. -/
def blankQueryState : AppState :=
  { idleState with searchQuery := "   " }

/-- Forecast samples: two in the first UTC day, one in the next. -/
def itemA : ForecastItem :=
  { dt := 0
    main := { temp := 10, temp_min := 5, temp_max := 15 }
    weather := [clearEntry] }

/-- Second sample of the first UTC day. -/
def itemB : ForecastItem :=
  { dt := 3600
    main := { temp := 12, temp_min := 3, temp_max := 20 }
    weather := [rainEntry] }

/-- A sample falling on the second UTC day. -/
def itemC : ForecastItem :=
  { dt := 90000
    main := { temp := 7, temp_min := 6, temp_max := 9 }
    weather := [clearEntry] }

/-- The sample list used by the aggregation witness. -/
def sampleItems : List ForecastItem := [itemA, itemB, itemC]

/-- The UTC day key of the epoch day 0 (January 1st, 1970; month 0-based). -/
def dayKeyEpoch : DayKey := (1970, 0, 1)

/-- The accumulator the first day of sampleItems folds to. -/
def accAB : DayAcc :=
  { dt := 0, min := 3, max := 20, day := 12, weather := [rainEntry] }

/-- A delivered, successful current-conditions response. -/
def goodCurrentResp : HttpResp CurrentWeatherResponse :=
  { ok := true, status := 200, body := .ok sampleCurrent }

/-- A delivered forecast response that failed at the HTTP level. -/
def failedForecastResp : HttpResp ForecastResponse :=
  { ok := false, status := 500, body := .error "parse failed" }

/-- A parsed forecast body whose in-body status code signals failure. -/
def codFailForecast : ForecastResponse :=
  { list := some [itemA]
    city := some { timezone := some 0 }
    cod := some (.num 404)
    message := some "quota exceeded" }

/-- A delivered forecast response whose in-body status code signals failure. -/
def codFailForecastResp : HttpResp ForecastResponse :=
  { ok := true, status := 200, body := .ok codFailForecast }

/-! ## Theorems -/

/-- C2: classify is total into the five-element taxonomy (by its type) and
agrees everywhere with the precedence chain written in the specification,
first match winning. -/
theorem classify_matches_spec_precedence (main : String) (weatherId : Int) :
    classifyBackground main weatherId = classifySpec main weatherId := by
  unfold classifyBackground classifySpec
  split_ifs <;> first | rfl | omega

/-! ### Helper lemmas about the daily aggregation fold -/

/-- Unfolding the aggregation fold over a snoc. -/
theorem dailyMapOf_append (items : List ForecastItem) (i : ForecastItem) :
    dailyMapOf (items ++ [i]) = dailyStep (dailyMapOf items) i := by
  unfold dailyMapOf
  rw [List.foldl_append]
  rfl

/-- Unfolding the first-seen key fold over a snoc. -/
theorem firstSeenKeys_append (ks : List DayKey) (k : DayKey) :
    firstSeenKeys (ks ++ [k]) =
      (if k ∈ firstSeenKeys ks then firstSeenKeys ks
       else firstSeenKeys ks ++ [k]) := by
  unfold firstSeenKeys
  rw [List.foldl_append]
  rfl

/-- Appending a binding only matters for a key that was absent. -/
theorem assocFind_append (m : List (DayKey × DayAcc)) (k kq : DayKey)
    (v : DayAcc) :
    assocFind (m ++ [(k, v)]) kq =
      (match assocFind m kq with
       | some a => some a
       | none => if k = kq then some v else none) := by
  induction m with
  | nil => simp [assocFind]
  | cons p rest ih =>
    by_cases hp : p.1 = kq <;> simp [assocFind, hp, ih]

/-- Updating the binding of one key only changes lookups of that key. -/
theorem assocFind_map_update (m : List (DayKey × DayAcc)) (kq ku : DayKey)
    (g : DayAcc → DayAcc) :
    assocFind (m.map (fun p => if p.1 = ku then (p.1, g p.2) else p)) kq =
      (if kq = ku then (assocFind m kq).map g else assocFind m kq) := by
  induction m with
  | nil => simp [assocFind]
  | cons p rest ih =>
    by_cases h1 : p.1 = ku
    · by_cases h2 : p.1 = kq
      · have hkq : kq = ku := by rw [← h2, h1]
        simp [assocFind, h1, h2, hkq]
      · have hkq : ¬ kq = ku := fun hc => h2 (by rw [h1, ← hc])
        have hkq2 : ¬ ku = kq := fun hc => hkq hc.symm
        simp [assocFind, h1, h2, hkq, hkq2, ih]
    · by_cases h2 : p.1 = kq
      · have hkq : ¬ kq = ku := fun hc => h1 (by rw [h2, hc])
        simp [assocFind, h1, h2, hkq]
      · simp [assocFind, h1, h2, ih]

/-- Specialization of the update lemma to the merge step of the fold. -/
theorem assocFind_map_merge (m : List (DayKey × DayAcc)) (kq : DayKey)
    (it : ForecastItem) :
    assocFind (m.map (fun p => if p.1 = itemKey it then (p.1, mergeAcc p.2 it) else p)) kq =
      (if kq = itemKey it then
        (assocFind m kq).map (fun x => mergeAcc x it)
       else assocFind m kq) :=
  assocFind_map_update m kq (itemKey it) (fun x => mergeAcc x it)

/-- A lookup misses exactly when the key is not among the stored keys. -/
theorem assocFind_eq_none_iff (m : List (DayKey × DayAcc)) (k : DayKey) :
    assocFind m k = none ↔ k ∉ m.map Prod.fst := by
  induction m with
  | nil => simp [assocFind]
  | cons p rest ih =>
    simp only [assocFind, List.map_cons, List.mem_cons]
    by_cases hp : p.1 = k
    · simp [hp]
    · have hp2 : ¬ k = p.1 := fun hc => hp hc.symm
      simp [hp, hp2, ih]

/-- The in-place update of the repeat-key branch keeps the key sequence. -/
theorem map_fst_update (m : List (DayKey × DayAcc)) (ku : DayKey)
    (g : DayAcc → DayAcc) :
    (m.map (fun p => if p.1 = ku then (p.1, g p.2) else p)).map Prod.fst =
      m.map Prod.fst := by
  induction m with
  | nil => rfl
  | cons p rest ih =>
    by_cases h : p.1 = ku <;> simp [h, ih]

/-- Specialization of the key-preservation lemma to the merge step. -/
theorem map_fst_merge (m : List (DayKey × DayAcc)) (it : ForecastItem) :
    (m.map (fun p => if p.1 = itemKey it then (p.1, mergeAcc p.2 it) else p)).map
      Prod.fst = m.map Prod.fst :=
  map_fst_update m (itemKey it) (fun x => mergeAcc x it)

/-- The keys of the folded daily map are the sample day keys in first-seen
order, each kept once. -/
theorem dailyMapOf_keys (items : List ForecastItem) :
    (dailyMapOf items).map Prod.fst = firstSeenKeys (items.map itemKey) := by
  induction items using List.reverseRecOn with
  | nil => rfl
  | append_singleton l i ih =>
    rw [dailyMapOf_append, List.map_append]
    simp only [List.map_cons, List.map_nil]
    rw [firstSeenKeys_append]
    unfold dailyStep
    cases hf : assocFind (dailyMapOf l) (itemKey i) with
    | none =>
      have hnot : itemKey i ∉ (dailyMapOf l).map Prod.fst :=
        (assocFind_eq_none_iff _ _).mp hf
      rw [ih] at hnot
      simp [hnot, ih]
    | some a =>
      have hmem : itemKey i ∈ (dailyMapOf l).map Prod.fst := by
        by_contra hc
        rw [← assocFind_eq_none_iff, hf] at hc
        exact Option.noConfusion hc
      rw [ih] at hmem
      dsimp only
      rw [map_fst_merge, ih, if_pos hmem]

/-- The first-seen fold preserves freedom from duplicates. -/
theorem firstSeenKeys_aux_nodup (ks : List DayKey) (acc : List DayKey)
    (h : acc.Nodup) :
    (ks.foldl (fun acc k => if k ∈ acc then acc else acc ++ [k]) acc).Nodup := by
  induction ks generalizing acc with
  | nil => exact h
  | cons k rest ih =>
    simp only [List.foldl_cons]
    by_cases hk : k ∈ acc
    · rw [if_pos hk]
      exact ih acc h
    · rw [if_neg hk]
      refine ih _ ?_
      simp [List.nodup_append, h, hk]

/-- First-seen key sequences carry no duplicates. -/
theorem firstSeenKeys_nodup (ks : List DayKey) : (firstSeenKeys ks).Nodup :=
  firstSeenKeys_aux_nodup ks [] List.nodup_nil

/-- With duplicate-free keys, membership and lookup agree. -/
theorem mem_iff_assocFind (m : List (DayKey × DayAcc)) :
    (m.map Prod.fst).Nodup → ∀ k a,
      ((k, a) ∈ m ↔ assocFind m k = some a) := by
  induction m with
  | nil =>
    intro _ k a
    simp [assocFind]
  | cons p rest ih =>
    intro hnd k a
    obtain ⟨p1, p2⟩ := p
    simp only [List.map_cons, List.nodup_cons] at hnd
    obtain ⟨hp1, hrest⟩ := hnd
    by_cases h : p1 = k
    · subst h
      have he : assocFind ((p1, p2) :: rest) p1 = some p2 := by
        simp [assocFind]
      constructor
      · intro hm
        rcases List.mem_cons.mp hm with heq | hmem
        · have ha : a = p2 := congrArg Prod.snd heq
          subst ha
          exact he
        · exact absurd (List.mem_map.mpr ⟨(p1, a), hmem, rfl⟩) hp1
      · intro hs
        rw [he] at hs
        injection hs with hs
        subst hs
        exact List.mem_cons_self _ _
    · rw [List.mem_cons]
      simp only [assocFind, if_neg h]
      constructor
      · rintro (heq | hmem)
        · exact absurd (congrArg Prod.fst heq).symm h
        · exact (ih hrest k a).mp hmem
      · intro hs
        exact .inr ((ih hrest k a).mpr hs)

/-- Central characterization: looking a day key up in the folded map returns
exactly the reference accumulator of that day, seeded from the first sample
of the day and merged with the later ones in order. -/
theorem assocFind_dailyMapOf (items : List ForecastItem) (k : DayKey) :
    assocFind (dailyMapOf items) k =
      (match sameDay k items with
       | [] => none
       | f :: rest => some (groupAcc f rest)) := by
  induction items using List.reverseRecOn with
  | nil => rfl
  | append_singleton l i ih =>
    rw [dailyMapOf_append]
    unfold dailyStep
    have hfilter : sameDay k (l ++ [i]) =
        sameDay k l ++ (if itemKey i = k then [i] else []) := by
      unfold sameDay
      rw [List.filter_append]
      by_cases h : itemKey i = k <;> simp [h]
    by_cases hk : itemKey i = k
    · cases hf : assocFind (dailyMapOf l) (itemKey i) with
      | none =>
        dsimp only
        have h0 : sameDay k l = [] := by
          rw [hk] at hf
          rw [ih] at hf
          cases hsd : sameDay k l with
          | nil => rfl
          | cons f rest =>
            rw [hsd] at hf
            exact Option.noConfusion hf
        rw [assocFind_append, hfilter, h0]
        rw [hk] at hf
        rw [hf]
        simp [hk, groupAcc]
      | some a =>
        dsimp only
        have hsome : assocFind (dailyMapOf l) k = some a := by
          rw [← hk]
          exact hf
        rw [ih] at hsome
        cases hsd : sameDay k l with
        | nil =>
          rw [hsd] at hsome
          exact Option.noConfusion hsome
        | cons f rest =>
          have hga : groupAcc f (rest ++ [i]) = mergeAcc (groupAcc f rest) i := by
            unfold groupAcc
            rw [List.foldl_append]
            rfl
          rw [assocFind_map_merge, if_pos hk.symm, hfilter, hsd, if_pos hk, ih, hsd]
          simp [hga]
    · cases hf : assocFind (dailyMapOf l) (itemKey i) with
      | none =>
        dsimp only
        rw [hfilter, if_neg hk, List.append_nil, assocFind_append]
        rw [← ih]
        cases hq : assocFind (dailyMapOf l) k with
        | none => simp [hk]
        | some b => simp
      | some a =>
        dsimp only
        rw [hfilter, if_neg hk, List.append_nil]
        rw [assocFind_map_merge, if_neg (fun hc => hk (hc.symm)), ih]

/-- Projection rewrites for the merge step. -/
theorem mergeAcc_min (a : DayAcc) (x : ForecastItem) :
    (mergeAcc a x).min = min a.min x.main.temp_min := rfl

/-- Projection rewrite for the widened maximum. -/
theorem mergeAcc_max (a : DayAcc) (x : ForecastItem) :
    (mergeAcc a x).max = max a.max x.main.temp_max := rfl

/-- The reference accumulator keeps the seeding timestamp. -/
theorem groupAcc_dt (f : ForecastItem) (rest : List ForecastItem) :
    (groupAcc f rest).dt = f.dt := by
  suffices h : ∀ (a : DayAcc), (rest.foldl mergeAcc a).dt = a.dt by
    exact h (seedAcc f)
  intro a
  induction rest generalizing a with
  | nil => rfl
  | cons x xs ih =>
    rw [List.foldl_cons, ih (mergeAcc a x)]
    rfl

/-- The folded minimum is a lower bound of the seed and of every merged
sample minimum. -/
theorem foldl_mergeAcc_min_le (rest : List ForecastItem) (a : DayAcc) :
    (rest.foldl mergeAcc a).min ≤ a.min ∧
    ∀ i ∈ rest, (rest.foldl mergeAcc a).min ≤ i.main.temp_min := by
  induction rest generalizing a with
  | nil => exact ⟨le_refl _, by simp⟩
  | cons x xs ih =>
    rw [List.foldl_cons]
    obtain ⟨h1, h2⟩ := ih (mergeAcc a x)
    rw [mergeAcc_min] at h1
    refine ⟨le_trans h1 (min_le_left _ _), ?_⟩
    intro i hi
    rcases List.mem_cons.mp hi with rfl | hmem
    · exact le_trans h1 (min_le_right _ _)
    · exact h2 i hmem

/-- The folded minimum is attained by the seed or by a merged sample. -/
theorem foldl_mergeAcc_min_attained (rest : List ForecastItem) (a : DayAcc) :
    (rest.foldl mergeAcc a).min = a.min ∨
    ∃ i ∈ rest, (rest.foldl mergeAcc a).min = i.main.temp_min := by
  induction rest generalizing a with
  | nil => exact .inl rfl
  | cons x xs ih =>
    rw [List.foldl_cons]
    rcases ih (mergeAcc a x) with h | ⟨i, hi, h⟩
    · rw [mergeAcc_min] at h
      rcases le_total a.min x.main.temp_min with hle | hle
      · exact .inl (by rw [h]; exact min_eq_left hle)
      · exact .inr ⟨x, List.mem_cons_self _ _, by rw [h]; exact min_eq_right hle⟩
    · exact .inr ⟨i, List.mem_cons_of_mem _ hi, h⟩

/-- The folded maximum is an upper bound of the seed and of every merged
sample maximum. -/
theorem foldl_mergeAcc_max_le (rest : List ForecastItem) (a : DayAcc) :
    a.max ≤ (rest.foldl mergeAcc a).max ∧
    ∀ i ∈ rest, i.main.temp_max ≤ (rest.foldl mergeAcc a).max := by
  induction rest generalizing a with
  | nil => exact ⟨le_refl _, by simp⟩
  | cons x xs ih =>
    rw [List.foldl_cons]
    obtain ⟨h1, h2⟩ := ih (mergeAcc a x)
    rw [mergeAcc_max] at h1
    refine ⟨le_trans (le_max_left _ _) h1, ?_⟩
    intro i hi
    rcases List.mem_cons.mp hi with rfl | hmem
    · exact le_trans (le_max_right _ _) h1
    · exact h2 i hmem

/-- The folded maximum is attained by the seed or by a merged sample. -/
theorem foldl_mergeAcc_max_attained (rest : List ForecastItem) (a : DayAcc) :
    (rest.foldl mergeAcc a).max = a.max ∨
    ∃ i ∈ rest, (rest.foldl mergeAcc a).max = i.main.temp_max := by
  induction rest generalizing a with
  | nil => exact .inl rfl
  | cons x xs ih =>
    rw [List.foldl_cons]
    rcases ih (mergeAcc a x) with h | ⟨i, hi, h⟩
    · rw [mergeAcc_max] at h
      rcases le_total a.max x.main.temp_max with hle | hle
      · exact .inr ⟨x, List.mem_cons_self _ _, by rw [h]; exact max_eq_right hle⟩
      · exact .inl (by rw [h]; exact max_eq_left hle)
    · exact .inr ⟨i, List.mem_cons_of_mem _ hi, h⟩

/-- Folding a non-empty tail ends with the day temperature and condition of
its last sample. -/
theorem foldl_mergeAcc_last (rest : List ForecastItem) (a : DayAcc)
    (l : ForecastItem) (h : rest.getLast? = some l) :
    (rest.foldl mergeAcc a).day = l.main.temp ∧
    (rest.foldl mergeAcc a).weather = l.weather := by
  induction rest using List.reverseRecOn generalizing a with
  | nil => exact Option.noConfusion h
  | append_singleton xs x ih =>
    rw [List.getLast?_concat] at h
    injection h with h
    subst h
    rw [List.foldl_append]
    exact ⟨rfl, rfl⟩

/-- C3: the daily aggregation groups forecast samples by UTC calendar date
in first-seen order: every stored accumulator is the reference fold of its
day (seeded from the first sample of the day, widened by min and max on each
repeat, representative temperature and condition overwritten by the latest
sample), the emitted summaries are the stored accumulators in first-seen key
order truncated to the first 8, and each accumulator holds the exact minimum
of the day's sample minima and the exact maximum of the day's sample
maxima. -/
theorem aggregate_daily_matches_spec (items : List ForecastItem) :
    aggregateDaily items =
      ((dailyMapOf items).take 8).map (fun p => accToDaily p.2) ∧
    (aggregateDaily items).length ≤ 8 ∧
    (dailyMapOf items).map Prod.fst = firstSeenKeys (items.map itemKey) ∧
    ∀ k a, (k, a) ∈ dailyMapOf items →
      ∃ f rest, sameDay k items = f :: rest ∧
        a = groupAcc f rest ∧
        a.dt = f.dt ∧
        (∀ i ∈ sameDay k items,
          a.min ≤ i.main.temp_min ∧ i.main.temp_max ≤ a.max) ∧
        (∃ i ∈ sameDay k items, i.main.temp_min = a.min) ∧
        (∃ j ∈ sameDay k items, j.main.temp_max = a.max) ∧
        ∃ lst, (sameDay k items).getLast? = some lst ∧
          a.day = lst.main.temp ∧ a.weather = lst.weather := by
  refine ⟨rfl, ?_, dailyMapOf_keys items, ?_⟩
  · unfold aggregateDaily
    rw [List.length_map]
    exact List.length_take_le 8 _
  · intro k a hmem
    have hnd : ((dailyMapOf items).map Prod.fst).Nodup := by
      rw [dailyMapOf_keys]
      exact firstSeenKeys_nodup _
    have hfind := (mem_iff_assocFind _ hnd k a).mp hmem
    rw [assocFind_dailyMapOf] at hfind
    cases hsd : sameDay k items with
    | nil =>
      rw [hsd] at hfind
      exact Option.noConfusion hfind
    | cons f rest =>
      rw [hsd] at hfind
      injection hfind with hfind
      have hmin := foldl_mergeAcc_min_le rest (seedAcc f)
      have hmax := foldl_mergeAcc_max_le rest (seedAcc f)
      refine ⟨f, rest, rfl, hfind.symm, ?_, ?_, ?_, ?_, ?_⟩
      · rw [← hfind]
        exact groupAcc_dt f rest
      · intro i hi
        rw [← hfind]
        rcases List.mem_cons.mp hi with rfl | hmem2
        · exact ⟨hmin.1, hmax.1⟩
        · exact ⟨hmin.2 i hmem2, hmax.2 i hmem2⟩
      · rw [← hfind]
        rcases foldl_mergeAcc_min_attained rest (seedAcc f) with h | ⟨i, hi, h⟩
        · exact ⟨f, List.mem_cons_self _ _, h.symm⟩
        · exact ⟨i, List.mem_cons_of_mem _ hi, h.symm⟩
      · rw [← hfind]
        rcases foldl_mergeAcc_max_attained rest (seedAcc f) with h | ⟨j, hj, h⟩
        · exact ⟨f, List.mem_cons_self _ _, h.symm⟩
        · exact ⟨j, List.mem_cons_of_mem _ hj, h.symm⟩
      · rw [← hfind]
        rcases List.eq_nil_or_concat rest with rfl | ⟨L, b, rfl⟩
        · exact ⟨f, rfl, rfl, rfl⟩
        · have hlast := foldl_mergeAcc_last (L ++ [b]) (seedAcc f) b
            (by rw [List.getLast?_concat])
          refine ⟨b, ?_, ?_, ?_⟩
          · rw [List.concat_eq_append, ← List.cons_append, List.getLast?_concat]
          · rw [List.concat_eq_append]
            exact hlast.1
          · rw [List.concat_eq_append]
            exact hlast.2

/-- Closed witness for the aggregation claim, at a sample list whose first
UTC day holds two samples and whose second day holds one. -/
theorem aggregate_daily_matches_spec_witness :
    ∃ f rest, sameDay dayKeyEpoch sampleItems = f :: rest ∧
      accAB = groupAcc f rest ∧
      accAB.dt = f.dt ∧
      (∀ i ∈ sameDay dayKeyEpoch sampleItems,
        accAB.min ≤ i.main.temp_min ∧ i.main.temp_max ≤ accAB.max) ∧
      (∃ i ∈ sameDay dayKeyEpoch sampleItems, i.main.temp_min = accAB.min) ∧
      (∃ j ∈ sameDay dayKeyEpoch sampleItems, j.main.temp_max = accAB.max) ∧
      ∃ lst, (sameDay dayKeyEpoch sampleItems).getLast? = some lst ∧
        accAB.day = lst.main.temp ∧ accAB.weather = lst.weather :=
  (aggregate_daily_matches_spec sampleItems).2.2.2 dayKeyEpoch accAB (by decide)

/-- Every successful fetch result is an assembled snapshot. -/
theorem fetchWeatherFree_ok_shape (net) (r : OneCallResponse)
    (h : fetchWeatherFree net = .ok r) :
    ∃ current forecastList timezoneOffset,
      r = buildOneCall current forecastList timezoneOffset := by
  unfold fetchWeatherFree at h
  rcases net with e | ⟨cr, fr⟩
  · exact Except.noConfusion h
  · dsimp only at h
    split_ifs at h
    rcases hcb : cr.body with e2 | current
    · rw [hcb] at h
      exact Except.noConfusion h
    rw [hcb] at h
    rcases hfb : fr.body with e3 | forecast
    · rw [hfb] at h
      exact Except.noConfusion h
    rw [hfb] at h
    dsimp only at h
    split_ifs at h
    all_goals first
      | exact Except.noConfusion h
      | (injection h with h2; exact ⟨current, _, _, h2.symm⟩)

/-- An assembled snapshot never has an empty daily sequence. -/
theorem buildOneCall_daily_ne_nil (current : CurrentWeatherResponse)
    (l : List ForecastItem) (tz : Int) :
    (buildOneCall current l tz).daily ≠ [] := by
  unfold buildOneCall
  rcases hl : aggregateDaily l with _ | ⟨d, ds⟩ <;> simp [hl]

/-- C4: after every successful fetch the daily sequence is non-empty, and
whenever the aggregation of the forecast samples yields no entries, the
emitted daily sequence is exactly one synthetic entry whose min, max and
representative temperature all equal the current temperature and whose
timestamp and condition are those of the current observation; consequently a
successful city resolution never holds a snapshot with an empty daily
sequence. -/
theorem daily_nonempty_and_synthetic :
    (∀ net r, fetchWeatherFree net = .ok r → r.daily ≠ []) ∧
    (∀ (current : CurrentWeatherResponse) (items : List ForecastItem) (tz : Int),
      aggregateDaily items = [] →
      (buildOneCall current items tz).daily = [syntheticDaily current] ∧
      syntheticDaily current =
        { dt := current.dt
          temp :=
            { min := current.main.temp
              max := current.main.temp
              day := current.main.temp }
          weather := current.weather }) ∧
    (∀ (s : AppState) (geo : GeocodingResult) (net) (oc : OneCallResponse)
      (w : ResolvedWeather),
      jsTrim s.searchQuery ≠ "" →
      fetchWeatherFree net = .ok oc →
      (searchByCity s (.ok (some geo)) (.ok oc)).1.fetchState = .success →
      (searchByCity s (.ok (some geo)) (.ok oc)).1.weather = some w →
      w.daily ≠ []) := by
  refine ⟨?_, ?_, ?_⟩
  · intro net r h
    obtain ⟨current, l, tz, rfl⟩ := fetchWeatherFree_ok_shape net r h
    exact buildOneCall_daily_ne_nil current l tz
  · intro current items tz hagg
    refine ⟨?_, rfl⟩
    unfold buildOneCall
    simp [hagg]
  · intro s geo net oc w hq hfetch hsucc hw
    obtain ⟨current, l, tz, rfl⟩ := fetchWeatherFree_ok_shape net oc hfetch
    unfold searchByCity at hsucc hw
    cases hh : (buildOneCall current l tz).current.weather.head? with
    | none =>
      rw [if_neg hq] at hsucc
      dsimp only at hsucc
      rw [hh] at hsucc
      exact absurd hsucc (by simp)
    | some head =>
      rw [if_neg hq] at hw
      dsimp only at hw
      rw [hh] at hw
      dsimp only at hw
      injection hw with hw
      rw [← hw]
      exact buildOneCall_daily_ne_nil current l tz

/-- Closed witness for the non-empty daily claim. -/
theorem daily_nonempty_and_synthetic_witness :
    sampleOneCall.daily ≠ [] ∧
    (buildOneCall sampleCurrent [] 3600).daily = [syntheticDaily sampleCurrent] :=
  ⟨daily_nonempty_and_synthetic.1 (.ok (goodCurrentResp, codFailForecastResp))
      sampleOneCall rfl,
   (daily_nonempty_and_synthetic.2.1 sampleCurrent [] 3600 rfl).1⟩

/-- C1 counterexample: with the current-conditions leg succeeding and the
forecast leg failing by HTTP status, the fetcher propagates an error instead
of returning an empty sample sequence, and the enclosing resolution settles
in the Error state, not Success. -/
theorem forecast_http_failure_fatal_cex :
    fetchWeatherFree (.ok (goodCurrentResp, failedForecastResp)) =
      .error "HTTP 500" ∧
    (searchByCity idleState (.ok (some sampleGeo))
        (fetchWeatherFree (.ok (goodCurrentResp, failedForecastResp)))).1.fetchState =
      .error := by
  constructor <;> rfl

/-- C1 (amended): when the current-conditions leg succeeds and the forecast
leg is delivered with an ok HTTP status but fails by its in-body status code,
the fetcher consumes an empty sample sequence and still returns successfully,
and the enclosing resolution reaches Success with daily being exactly one
synthetic entry derived from current conditions. A forecast failure at the
HTTP level, by contrast, aborts the whole fetch with an error. -/
theorem forecast_cod_failure_is_soft (cr : HttpResp CurrentWeatherResponse)
    (fr : HttpResp ForecastResponse) (current : CurrentWeatherResponse)
    (forecast : ForecastResponse) (s : AppState) (geo : GeocodingResult)
    (head : WeatherEntry)
    (hcr : cr.ok = true) (hcb : cr.body = .ok current)
    (hcod : codOk current.cod = true)
    (hfr : fr.ok = true) (hfb : fr.body = .ok forecast)
    (hfcod : codOk forecast.cod = false)
    (hq : jsTrim s.searchQuery ≠ "")
    (hhead : current.weather.head? = some head) :
    usedForecastList (codOk forecast.cod) forecast.list = [] ∧
    ∃ r, fetchWeatherFree (.ok (cr, fr)) = .ok r ∧
      r.daily = [syntheticDaily current] ∧
      (searchByCity s (.ok (some geo)) (.ok r)).1.fetchState = .success ∧
      ∀ w, (searchByCity s (.ok (some geo)) (.ok r)).1.weather = some w →
        w.daily = [syntheticDaily current] := by
  refine ⟨by simp [usedForecastList, hfcod], buildOneCall current []
    (current.timezone.getD ((forecast.city.bind (fun c => c.timezone)).getD 0)),
    ?_, ?_, ?_, ?_⟩
  · unfold fetchWeatherFree
    simp [hcr, hfr, hcb, hfb, hcod, hfcod, usedForecastList]
  · rfl
  · unfold searchByCity
    simp [hq, buildOneCall, hhead]
  · intro w hw
    unfold searchByCity at hw
    simp [hq, buildOneCall, hhead, Option.some.injEq] at hw
    rw [← hw]
    rfl

/-- Closed witness for the amended soft-forecast-failure claim. -/
theorem forecast_cod_failure_is_soft_witness :
    usedForecastList (codOk codFailForecast.cod) codFailForecast.list = [] ∧
    ∃ r, fetchWeatherFree (.ok (goodCurrentResp, codFailForecastResp)) = .ok r ∧
      r.daily = [syntheticDaily sampleCurrent] ∧
      (searchByCity idleState (.ok (some sampleGeo)) (.ok r)).1.fetchState =
        .success ∧
      ∀ w, (searchByCity idleState (.ok (some sampleGeo)) (.ok r)).1.weather =
          some w → w.daily = [syntheticDaily sampleCurrent] :=
  forecast_cod_failure_is_soft goodCurrentResp codFailForecastResp sampleCurrent
    codFailForecast idleState sampleGeo clearEntry rfl rfl rfl rfl rfl rfl
    (by decide) rfl

/-- C5: a unit-change request on a state holding a snapshot whose re-fetch
fails leaves the machine in the Error state with the refresh-specific
message, while the previously displayed snapshot is retained unchanged. -/
theorem unit_change_failure_retains_snapshot (s : AppState) (next : Units)
    (e : String) (w : ResolvedWeather)
    (hne : next ≠ s.units) (hw : s.weather = some w) :
    (handleUnitsChange s next (.error e)).1.fetchState = .error ∧
    (handleUnitsChange s next (.error e)).1.error =
      some "Unable to refresh weather for the new unit." ∧
    (handleUnitsChange s next (.error e)).1.weather = some w := by
  unfold handleUnitsChange
  simp [hne, hw]

/-- Closed witness for the unit-change failure claim. -/
theorem unit_change_failure_retains_snapshot_witness :
    (handleUnitsChange snappedState .imperial (.error "boom")).1.fetchState = .error ∧
    (handleUnitsChange snappedState .imperial (.error "boom")).1.error =
      some "Unable to refresh weather for the new unit." ∧
    (handleUnitsChange snappedState .imperial (.error "boom")).1.weather =
      some sampleSnapshot :=
  unit_change_failure_retains_snapshot snappedState .imperial "boom"
    sampleSnapshot (by decide) rfl

/-- C7: a unit-change request equal to the current unit system is a complete
no-op with no fetch call, and a differing request without a snapshot only
stores the new unit preference, again with no fetch call. -/
theorem unit_change_noop_frame (s : AppState) (next : Units)
    (r : Except String OneCallResponse) :
    handleUnitsChange s s.units r = (s, 0) ∧
    (next ≠ s.units → s.weather = none →
      handleUnitsChange s next r = ({ s with units := next }, 0)) := by
  constructor
  · unfold handleUnitsChange
    simp
  · intro hne hw
    unfold handleUnitsChange
    simp [hne, hw]

/-- Closed witness for the unit-change no-op claim. -/
theorem unit_change_noop_frame_witness :
    handleUnitsChange idleState .metric (.error "x") = (idleState, 0) ∧
    handleUnitsChange idleState .imperial (.error "x") =
      ({ idleState with units := .imperial }, 0) :=
  ⟨(unit_change_noop_frame idleState .imperial (.error "x")).1,
   (unit_change_noop_frame idleState .imperial (.error "x")).2 (by decide) rfl⟩

/-- C9: on a differing unit-change request with a snapshot present, the unit
preference is stored up front and survives a failed re-fetch, while the
retained snapshot still holds the values fetched under the old unit system. -/
theorem unit_change_failure_keeps_new_units (s : AppState) (next : Units)
    (e : String) (w : ResolvedWeather)
    (hne : next ≠ s.units) (hw : s.weather = some w) :
    (handleUnitsChange s next (.error e)).1.units = next ∧
    (handleUnitsChange s next (.error e)).1.weather = some w := by
  unfold handleUnitsChange
  simp [hne, hw]

/-- Closed witness for the stored-preference claim. -/
theorem unit_change_failure_keeps_new_units_witness :
    (handleUnitsChange snappedState .imperial (.error "nope")).1.units = .imperial ∧
    (handleUnitsChange snappedState .imperial (.error "nope")).1.weather =
      some sampleSnapshot :=
  unit_change_failure_keeps_new_units snappedState .imperial "nope"
    sampleSnapshot (by decide) rfl

/-- C6: a query that trims to the empty string only sets the user-facing
message; the fetch state (so in particular Loading), the snapshot and the
search mode keep their prior values and neither collaborator is called. -/
theorem empty_query_fails_fast (s : AppState)
    (g : Except String (Option GeocodingResult))
    (f : Except String OneCallResponse)
    (hq : jsTrim s.searchQuery = "") :
    searchByCity s g f =
      ({ s with error := some "Please enter a city name" }, 0, 0) ∧
    (searchByCity s g f).1.fetchState = s.fetchState ∧
    (searchByCity s g f).1.weather = s.weather ∧
    (searchByCity s g f).1.searchMode = s.searchMode := by
  unfold searchByCity
  simp [hq]

/-- Closed witness for the empty-query claim. -/
theorem empty_query_fails_fast_witness :
    searchByCity blankQueryState (.error "g") (.error "f") =
      ({ blankQueryState with error := some "Please enter a city name" }, 0, 0) ∧
    (searchByCity blankQueryState (.error "g") (.error "f")).1.fetchState =
      blankQueryState.fetchState ∧
    (searchByCity blankQueryState (.error "g") (.error "f")).1.weather =
      blankQueryState.weather ∧
    (searchByCity blankQueryState (.error "g") (.error "f")).1.searchMode =
      blankQueryState.searchMode :=
  empty_query_fails_fast blankQueryState (.error "g") (.error "f") (by decide)

/-- C8: reverse geocoding is best-effort: every transport failure, non-ok
response or parse failure degrades to none; the coordinate resolution result
state never depends on the reverse-geocode outcome, and with none it still
succeeds, merely falling back to the default display label. -/
theorem reverse_geocode_is_best_effort :
    (∀ e, reverseGeocode (.transportError e) = none) ∧
    (∀ resp : HttpResp (List GeocodingResult), resp.ok = false →
      reverseGeocode (.response resp) = none) ∧
    (∀ (resp : HttpResp (List GeocodingResult)) (e : String),
      resp.body = .error e → reverseGeocode (.response resp) = none) ∧
    (∀ s fetchR geo1 geo2,
      (resolveWithGeoPosition s fetchR geo1).fetchState =
        (resolveWithGeoPosition s fetchR geo2).fetchState) ∧
    (∀ s oneCall head, oneCall.current.weather.head? = some head →
      (resolveWithGeoPosition s (.ok oneCall) none).fetchState = .success ∧
      ∀ w, (resolveWithGeoPosition s (.ok oneCall) none).weather = some w →
        w.locationName = "Current location") := by
  refine ⟨fun e => rfl, fun resp h => ?_, fun resp e h => ?_,
    fun s fetchR geo1 geo2 => ?_, fun s oneCall head h => ?_⟩
  · unfold reverseGeocode
    simp [h]
  · unfold reverseGeocode
    by_cases hok : resp.ok = false <;> simp [hok, h]
  · unfold resolveWithGeoPosition
    cases fetchR with
    | error e => rfl
    | ok oneCall => cases h2 : oneCall.current.weather.head? <;> simp [h2]
  · refine ⟨?_, fun w hw => ?_⟩
    · unfold resolveWithGeoPosition
      simp only [h]
    · unfold resolveWithGeoPosition at hw
      simp only [h, Option.some.injEq] at hw
      rw [← hw]
      simp [buildLocationLabel]

/-- Closed witness for the best-effort reverse geocoding claim. -/
theorem reverse_geocode_is_best_effort_witness :
    reverseGeocode (.response { ok := false, status := 500, body := .ok [sampleGeo] }) = none ∧
    reverseGeocode (.response { ok := true, status := 200, body := .error "bad json" }) = none ∧
    (resolveWithGeoPosition idleState (.ok sampleOneCall) none).fetchState = .success :=
  ⟨reverse_geocode_is_best_effort.2.1 _ rfl,
   reverse_geocode_is_best_effort.2.2.1 _ "bad json" rfl,
   (reverse_geocode_is_best_effort.2.2.2.2 idleState sampleOneCall clearEntry rfl).1⟩

/-- C10: on every modelled path into Success the head of the current weather
array is dereferenced without a guard, so with the collaborators succeeding
the resolution reaches Success exactly when that array is non-empty, and with
an empty array it ends in the Error state instead. -/
theorem success_requires_nonempty_weather_list (s : AppState) (next : Units)
    (geo : GeocodingResult) (oneCall : OneCallResponse) (w : ResolvedWeather)
    (g : Option GeocodingResult)
    (hq : jsTrim s.searchQuery ≠ "") (hne : next ≠ s.units)
    (hw : s.weather = some w) :
    ((searchByCity s (.ok (some geo)) (.ok oneCall)).1.fetchState = .success ↔
      oneCall.current.weather ≠ []) ∧
    ((handleUnitsChange s next (.ok oneCall)).1.fetchState = .success ↔
      oneCall.current.weather ≠ []) ∧
    ((resolveWithGeoPosition s (.ok oneCall) g).fetchState = .success ↔
      oneCall.current.weather ≠ []) ∧
    (oneCall.current.weather = [] →
      (searchByCity s (.ok (some geo)) (.ok oneCall)).1.fetchState = .error ∧
      (handleUnitsChange s next (.ok oneCall)).1.fetchState = .error ∧
      (resolveWithGeoPosition s (.ok oneCall) g).fetchState = .error) := by
  rcases hl : oneCall.current.weather with _ | ⟨a, rest⟩ <;>
    unfold searchByCity handleUnitsChange resolveWithGeoPosition <;>
    simp [hq, hne, hw, hl]

/-- Closed witness for the unguarded-head claim: with an empty weather array
both intents settle in the Error state. -/
theorem success_requires_nonempty_weather_list_witness :
    (((searchByCity snappedState (.ok (some sampleGeo)) (.ok emptyWeatherOneCall)).1.fetchState
        = .success) ↔ emptyWeatherOneCall.current.weather ≠ []) ∧
    (((handleUnitsChange snappedState .imperial (.ok emptyWeatherOneCall)).1.fetchState
        = .success) ↔ emptyWeatherOneCall.current.weather ≠ []) ∧
    (((resolveWithGeoPosition snappedState (.ok emptyWeatherOneCall) none).fetchState
        = .success) ↔ emptyWeatherOneCall.current.weather ≠ []) ∧
    (emptyWeatherOneCall.current.weather = [] →
      (searchByCity snappedState (.ok (some sampleGeo)) (.ok emptyWeatherOneCall)).1.fetchState
        = .error ∧
      (handleUnitsChange snappedState .imperial (.ok emptyWeatherOneCall)).1.fetchState
        = .error ∧
      (resolveWithGeoPosition snappedState (.ok emptyWeatherOneCall) none).fetchState
        = .error) :=
  success_requires_nonempty_weather_list snappedState .imperial sampleGeo
    emptyWeatherOneCall sampleSnapshot none (by decide) (by decide) rfl

end WeatherApp
